import Mathlib

/-!
Shallow embedding of the recording engine of the Screen_Recorder_GUI
repository (src/recording/recorder.py, src/recording/encoder.py,
src/recording/audio_capture.py) and proofs about its specification.

Python floats are modelled as rationals; machine integers as ℤ/ℕ.
Filesystem and subprocess effects are modelled by explicit environment
records whose fields name the outcome of each external call.
-/

namespace ScreenRecorder

/-- The recording state enumeration (recorder.py, class RecordingState). -/
inductive RecordingState
  | IDLE
  | RECORDING
  | PAUSED
  deriving DecidableEq

/-- The session-timing fields of the Recorder object (recorder.py lines
50-63).  `start_time` and `pause_time` are Python floats initialised to
`None`, hence `Option ℚ`. -/
structure Session where
  state : RecordingState
  start_time : Option ℚ
  pause_time : Option ℚ
  total_pause_duration : ℚ
  frames_recorded : ℕ
  audio_chunks_recorded : ℕ
  deriving DecidableEq

/-- A freshly constructed Recorder: state IDLE, no timestamps, zero
counters (recorder.py __init__). -/
def initSession : Session :=
  { state := RecordingState.IDLE
    start_time := none
    pause_time := none
    total_pause_duration := 0
    frames_recorded := 0
    audio_chunks_recorded := 0 }

/-- pause_recording (recorder.py lines 251-267).  The state-changed
callback does not touch session fields and is omitted.  Returns the
boolean result together with the updated session. -/
def pause_recording (now : ℚ) (s : Session) : Bool × Session :=
  if s.state ≠ RecordingState.RECORDING then
    (false, s)
  else
    (true, { s with state := RecordingState.PAUSED, pause_time := some now })

/-- resume_recording (recorder.py lines 269-288).  The Python guard
`if self.pause_time:` is falsy both for `None` and for the float `0.0`. -/
def resume_recording (now : ℚ) (s : Session) : Bool × Session :=
  if s.state ≠ RecordingState.PAUSED then
    (false, s)
  else
    let s1 :=
      match s.pause_time with
      | some p =>
          if p ≠ 0 then
            { s with total_pause_duration := s.total_pause_duration + (now - p)
                     pause_time := none }
          else s
      | none => s
    (true, { s1 with state := RecordingState.RECORDING })

/-- Outcomes of the external calls made by the finalize step of
stop_recording (recorder.py lines 203-244): existence checks on the two
temporary files, the size probe on the audio file, and the result of
FFmpegEncoder.merge_audio_video. -/
structure StopEnv where
  temp_video_path_set : Bool
  temp_video_exists : Bool
  temp_audio_path_set : Bool
  temp_audio_exists : Bool
  temp_audio_size : ℕ
  merge_ok : Bool
  deriving DecidableEq

/-- What ends up at the user-chosen output path after stop_recording. -/
inductive FinalOutput
  | merged
  | videoOnly
  | untouched
  deriving DecidableEq

/-- Result of stop_recording: its boolean return value, the session
after the call, and what was placed at the output path. -/
structure StopResult where
  returnValue : Bool
  session : Session
  output : FinalOutput
  deriving DecidableEq

/-- stop_recording (recorder.py lines 166-249).  From IDLE it returns
True immediately.  Otherwise it sets the state to IDLE (the loop's
termination signal), joins the thread, stops encoder and audio capture,
closes the wave file — none of which mutate the session-timing fields —
and then runs the finalize step.  `os.rename` and `os.remove` are
modelled as succeeding (their exceptions are not exercised by any
claim).  Note that `start_time`, `pause_time`, `total_pause_duration`
and the counters are left untouched. -/
def stop_recording (env : StopEnv) (s : Session) : StopResult :=
  if s.state = RecordingState.IDLE then
    { returnValue := true, session := s, output := FinalOutput.untouched }
  else
    let s1 := { s with state := RecordingState.IDLE }
    if env.temp_video_path_set && env.temp_video_exists then
      if env.temp_audio_path_set && env.temp_audio_exists &&
          decide (env.temp_audio_size > 100) then
        if env.merge_ok then
          { returnValue := true, session := s1, output := FinalOutput.merged }
        else
          { returnValue := false, session := s1, output := FinalOutput.videoOnly }
      else
        { returnValue := true, session := s1, output := FinalOutput.videoOnly }
    else
      { returnValue := false, session := s1, output := FinalOutput.untouched }

/-- get_duration (recorder.py lines 380-396).  The Python guard
`if not self.start_time:` is truthy for `None` and for `0.0`; likewise
`if self.pause_time:`.  The recording state is never consulted. -/
def get_duration (now : ℚ) (s : Session) : ℚ :=
  match s.start_time with
  | none => 0
  | some st =>
      if st = 0 then 0
      else
        match s.pause_time with
        | some p =>
            if p ≠ 0 then max 0 (now - st - s.total_pause_duration - (now - p))
            else max 0 (now - st - s.total_pause_duration)
        | none => max 0 (now - st - s.total_pause_duration)

/-- A StopEnv in which no temporary file exists (e.g. directly after
construction). -/
def stopEnvEmpty : StopEnv :=
  { temp_video_path_set := false
    temp_video_exists := false
    temp_audio_path_set := false
    temp_audio_exists := false
    temp_audio_size := 0
    merge_ok := false }

/-- A StopEnv for a session that recorded video and a non-trivial audio
file, where the merge invocation fails. -/
def stopEnvMergeFails : StopEnv :=
  { temp_video_path_set := true
    temp_video_exists := true
    temp_audio_path_set := true
    temp_audio_exists := true
    temp_audio_size := 4800
    merge_ok := false }

/-- A mid-recording session: started at t = 10 with no pause so far. -/
def recordingSession : Session :=
  { state := RecordingState.RECORDING
    start_time := some 10
    pause_time := none
    total_pause_duration := 0
    frames_recorded := 60
    audio_chunks_recorded := 3 }

/-- An externally observable step of a recording session: a progress
query at some wall-clock time, or a pause/resume call at some time. -/
inductive RecorderAction
  | tick (t : ℚ)
  | doPause (t : ℚ)
  | doResume (t : ℚ)
  deriving DecidableEq

/-- The wall-clock time at which an action happens. -/
def RecorderAction.time : RecorderAction → ℚ
  | .tick t => t
  | .doPause t => t
  | .doResume t => t

/-- Effect of an action on the session. -/
def applyAction (s : Session) : RecorderAction → Session
  | .tick _ => s
  | .doPause t => (pause_recording t s).2
  | .doResume t => (resume_recording t s).2

/-- The sequence of get_duration values observed at each action's time,
immediately after the action is applied. -/
def durationsAlong (s : Session) : List RecorderAction → List ℚ
  | [] => []
  | a :: rest =>
      let s1 := applyAction s a
      get_duration a.time s1 :: durationsAlong s1 rest

/-- Sessions whose Recording state carries no live pause timestamp.
Within one run this is preserved (resume_recording clears pause_time),
but it is NOT guaranteed across runs: start_recording resets every
per-session field except pause_time, so a session restarted after a
stop-from-Paused violates it — see staleSession below. -/
def NoStalePause (s : Session) : Prop :=
  s.state = RecordingState.RECORDING →
    s.pause_time = none ∨ s.pause_time = some 0

/-- Action times are non-decreasing, starting from a given time. -/
def ValidTimes : ℚ → List RecorderAction → Prop
  | _, [] => True
  | tprev, a :: rest => tprev ≤ a.time ∧ ValidTimes a.time rest

/-- The elapsed-time formula of get_duration as a function of the three
session fields it reads (start_time, pause_time, total_pause_duration). -/
def durationFormula (now : ℚ) (ost opt : Option ℚ) (tp : ℚ) : ℚ :=
  match ost with
  | none => 0
  | some st =>
      if st = 0 then 0
      else
        match opt with
        | some p =>
            if p ≠ 0 then max 0 (now - st - tp - (now - p))
            else max 0 (now - st - tp)
        | none => max 0 (now - st - tp)

/-- Python int() of a float: truncation toward zero, here on rationals. -/
def pyInt (q : ℚ) : ℤ := Int.tdiv q.num q.den

/-- Shape and dtype data of a numpy frame: (height, width, channels)
with itemsize bytes per element (uint8 has itemsize 1). -/
structure NpFrame where
  height : ℕ
  width : ℕ
  channels : ℕ
  itemsize : ℕ
  deriving DecidableEq

/-- Observations of one iteration of the catch-up for-loop: whether the
state read at the top of the iteration was IDLE, and whether
write_video_frame returned True. -/
structure BurstObs where
  idleObserved : Bool
  writeOk : Bool
  deriving DecidableEq

/-- The catch-up for-loop of _recording_loop (recorder.py lines
329-336): one iteration per observation; it stops as soon as IDLE is
observed or a write fails, and increments frames_recorded on every
successful write. -/
def catchUpBurst : ℕ → List BurstObs → ℕ
  | fr, [] => fr
  | fr, o :: rest =>
      if o.idleObserved then fr
      else if o.writeOk then catchUpBurst (fr + 1) rest
      else fr

/-- Inputs of one video-handling pass of _recording_loop (recorder.py
lines 299-336) in the Recording state: wall-clock time, session timing
fields, target fps, current frame counter, the fresh-capture result, and
the retained last frame. -/
structure VideoPassIn where
  now : ℚ
  start_time : ℚ
  total_pause_duration : ℚ
  fps : ℕ
  frames_recorded : ℕ
  fresh : Option NpFrame
  last : Option NpFrame

/-- expected_frames = int(elapsed * fps) (recorder.py lines 303-304). -/
def expected_frames (inp : VideoPassIn) : ℤ :=
  pyInt ((inp.now - inp.start_time - inp.total_pause_duration) * inp.fps)

/-- The frame the catch-up loop writes, and (when behind schedule) the
new value of the retained `_last_frame`: the fresh capture when it
succeeded, otherwise the retained last frame (recorder.py lines
311-318). -/
def selectWriteFrame (fresh last : Option NpFrame) : Option NpFrame :=
  match fresh with
  | some f => some f
  | none => last

/-- One video-handling pass (recorder.py lines 301-336): when behind
schedule, refresh the retained last frame from a successful capture,
choose the frame to write via selectWriteFrame, and run the catch-up
loop for expected - recorded iterations (no writes if no frame is
available yet).  Returns the new frames_recorded and the new retained
last frame. -/
def videoPass (inp : VideoPassIn) (obs : List BurstObs) : ℕ × Option NpFrame :=
  if (inp.frames_recorded : ℤ) < expected_frames inp then
    match selectWriteFrame inp.fresh inp.last with
    | none => (inp.frames_recorded, selectWriteFrame inp.fresh inp.last)
    | some _ =>
        (catchUpBurst inp.frames_recorded
          (obs.take (expected_frames inp - (inp.frames_recorded : ℤ)).toNat),
         selectWriteFrame inp.fresh inp.last)
  else (inp.frames_recorded, inp.last)

/-- A concrete burst observation list: two iterations, no IDLE seen,
both writes succeed. -/
def burstObsSample : List BurstObs :=
  [{ idleObserved := false, writeOk := true },
   { idleObserved := false, writeOk := true }]

/-- A concrete pass input: one second into an unpaused 2-fps session
with no frame written yet and a fresh 100x100 RGB capture. -/
def videoPassSample : VideoPassIn :=
  { now := 1
    start_time := 0
    total_pause_duration := 0
    fps := 2
    frames_recorded := 0
    fresh := some { height := 100, width := 100, channels := 3, itemsize := 1 }
    last := none }

/-- Audio samples as integers.  The capture callbacks deliver int16
values; the mixing arithmetic below is done in int32 in the source and
its result is cast back to int16, which is exact for int16 inputs
(|a + b| ≤ 65535, so the halved value fits int16). -/
abbrev AudioData := List ℤ

/-- An element of the audio queue: (source label, capture timestamp,
samples), as produced by the capture callbacks (audio_capture.py lines
81-119). -/
structure AudioChunk where
  source : String
  timestamp : ℚ
  data : AudioData
  deriving DecidableEq

/-- Mixing one further chunk into the accumulator (recorder.py lines
355-360): the overlapping prefix of length min(len(mixed), len(data))
becomes the element-wise average computed with numpy integer division,
which is floor division; the accumulator's samples beyond the overlap
are left untouched, so the result keeps the accumulator's length. -/
def mixPair (mixed data : AudioData) : AudioData :=
  List.zipWith (fun a b => Int.fdiv (a + b) 2) mixed data ++
    mixed.drop (min mixed.length data.length)

/-- The audio-mixing fold of _recording_loop (recorder.py lines
349-361): the first dequeued chunk is copied, every further chunk is
mixed in with mixPair; no chunk is produced when the burst is empty. -/
def mixChunks (chunks : List AudioChunk) : Option AudioData :=
  chunks.foldl
    (fun mixed c =>
      match mixed with
      | none => some c.data
      | some m => some (mixPair m c.data))
    none

/-- Chunk A of the claim's scenario: 500 samples, here all -3. -/
def chunkA : AudioChunk :=
  { source := "system", timestamp := 0, data := List.replicate 500 (-3) }

/-- Chunk B of the claim's scenario: 300 samples, here all 0. -/
def chunkB : AudioChunk :=
  { source := "microphone", timestamp := 0, data := List.replicate 300 0 }

/-- State of the FFmpegEncoder relevant to write_video_frame
(encoder.py): the target dimensions, whether encoding is active,
whether the process and its stdin handle exist, and whether a write on
the pipe raises (BrokenPipeError / OSError / ValueError). -/
structure EncoderSt where
  width : ℕ
  height : ℕ
  is_encoding : Bool
  stdin_available : Bool
  pipe_broken : Bool
  deriving DecidableEq

/-- Outcome of a write_video_frame call: either the call returned
normally (with its boolean result and whether a pipe write was
attempted), or an exception escaped to the caller. -/
inductive WriteOutcome
  | returned (value : Bool) (wrote : Bool)
  | raised
  deriving DecidableEq

/-- Whether Image.fromarray accepts the 3-dimensional frame array: it
does exactly for uint8 data (itemsize 1) with 2, 3 or 4 channels (PIL
modes LA, RGB, RGBA); for any other dtype or channel count it raises
TypeError. -/
def fromarraySupported (f : NpFrame) : Bool :=
  f.itemsize == 1 && (f.channels == 2 || f.channels == 3 || f.channels == 4)

/-- The shape of the frame after the successful-path normalisation of
write_video_frame (encoder.py lines 164-176): a frame whose spatial
shape differs from (height, width) is resized with PIL to the target
size, keeping its channel count; the dtype is then normalised to uint8
(itemsize 1, a plain astype that never raises) and the data made
contiguous.  This describes the data flow only when the PIL conversion
did not raise (no resize needed, or fromarraySupported). -/
def resizedFrame (e : EncoderSt) (f : NpFrame) : NpFrame :=
  if f.height ≠ e.height ∨ f.width ≠ e.width then
    { height := e.height, width := e.width, channels := f.channels,
      itemsize := 1 }
  else
    { height := f.height, width := f.width, channels := f.channels,
      itemsize := 1 }

/-- write_video_frame (encoder.py lines 150-192).  Returns False when
not encoding or the process/stdin handle is gone.  A frame needing a
resize that Image.fromarray cannot convert makes the call raise: the
except clause (line 188) catches only BrokenPipeError, OSError and
ValueError, so PIL's TypeError propagates to the caller.  Otherwise the
frame is normalised (resizedFrame), the byte-length check compares
height*width*channels*itemsize against width*height*3 and returns False
before any pipe write on mismatch, and a broken pipe makes the
attempted write return False without propagating. -/
def write_video_frame (e : EncoderSt) (f : NpFrame) : WriteOutcome :=
  if e.is_encoding = false ∨ e.stdin_available = false then
    WriteOutcome.returned false false
  else if (f.height ≠ e.height ∨ f.width ≠ e.width) ∧
      fromarraySupported f = false then
    WriteOutcome.raised
  else if (resizedFrame e f).height * (resizedFrame e f).width *
      (resizedFrame e f).channels * (resizedFrame e f).itemsize ≠
      e.width * e.height * 3 then
    WriteOutcome.returned false false
  else if e.pipe_broken then
    WriteOutcome.returned false true
  else
    WriteOutcome.returned true true

/-- A healthy 1920x1080 encoder. -/
def encoderSample : EncoderSt :=
  { width := 1920, height := 1080, is_encoding := true,
    stdin_available := true, pipe_broken := false }

/-- A 10x10 RGB uint8 frame — 300 bytes, far from 1920*1080*3. -/
def frameSmall : NpFrame :=
  { height := 10, width := 10, channels := 3, itemsize := 1 }

/-- A 1080x1920 RGBA uint8 frame — right spatial shape, wrong channel
count. -/
def frameRgba : NpFrame :=
  { height := 1080, width := 1920, channels := 4, itemsize := 1 }

/-- A 10x10 float32 RGB frame (itemsize 4): its byte length 1200 is
wrong and it needs a resize, but Image.fromarray cannot convert float32
3-channel data, so the call raises instead of returning False. -/
def frameFloat : NpFrame :=
  { height := 10, width := 10, channels := 3, itemsize := 4 }

/-- Outcomes of the external calls made during start_recording
(recorder.py lines 86-164): presence of the capture objects, the audio
channel switches, and the success of opening the wave file, locating
the ffmpeg executable (its absence makes the FFmpegEncoder constructor
raise), launching the encoder process, and starting audio capture. -/
structure StartEnv where
  has_video_capture : Bool
  audio_capture_present : Bool
  system_audio_enabled : Bool
  microphone_enabled : Bool
  wave_open_ok : Bool
  ffmpeg_found : Bool
  encoder_start_ok : Bool
  audio_start_ok : Bool
  deriving DecidableEq

/-- Result of start_recording: the return value, the session, and which
resources created by the call are left active afterwards. -/
structure StartResult where
  returnValue : Bool
  session : Session
  wave_file_open : Bool
  temp_audio_file_on_disk : Bool
  encoder_running : Bool
  audio_capturing : Bool
  loop_thread_running : Bool
  deriving DecidableEq

/-- start_recording (recorder.py lines 86-164).  Guards: not IDLE or no
video capture return False untouched.  With audio enabled, the wave
file is opened first (failure merely disables audio).  If the
FFmpegEncoder constructor raises (ffmpeg missing), the except handler
calls stop_recording — a no-op, because the state is still IDLE — and
returns False, leaving the already-opened wave file open and the temp
audio file on disk.  If encoder.start_encoding() fails, the code
returns False directly with the same leftovers.  Otherwise audio
capture is started (failure only logs), the counters are reset,
start_time is set (pause_time is NOT cleared), and the loop thread is
spawned. -/
def start_recording (now : ℚ) (env : StartEnv) (s : Session) : StartResult :=
  if s.state ≠ RecordingState.IDLE then
    { returnValue := false, session := s, wave_file_open := false,
      temp_audio_file_on_disk := false, encoder_running := false,
      audio_capturing := false, loop_thread_running := false }
  else if env.has_video_capture = false then
    { returnValue := false, session := s, wave_file_open := false,
      temp_audio_file_on_disk := false, encoder_running := false,
      audio_capturing := false, loop_thread_running := false }
  else
    let audio_enabled := env.audio_capture_present &&
      (env.system_audio_enabled || env.microphone_enabled)
    let wave_opened := audio_enabled && env.wave_open_ok
    if env.ffmpeg_found = false then
      { returnValue := false, session := s, wave_file_open := wave_opened,
        temp_audio_file_on_disk := wave_opened, encoder_running := false,
        audio_capturing := false, loop_thread_running := false }
    else if env.encoder_start_ok = false then
      { returnValue := false, session := s, wave_file_open := wave_opened,
        temp_audio_file_on_disk := wave_opened, encoder_running := false,
        audio_capturing := false, loop_thread_running := false }
    else
      { returnValue := true
        session := { s with state := RecordingState.RECORDING
                            start_time := some now
                            total_pause_duration := 0
                            frames_recorded := 0
                            audio_chunks_recorded := 0 }
        wave_file_open := wave_opened
        temp_audio_file_on_disk := wave_opened
        encoder_running := true
        audio_capturing := env.audio_capture_present && env.audio_start_ok
        loop_thread_running := true }

/-- The failing setup: everything present and healthy except that the
encoder process fails to launch. -/
def startEnvEncoderFails : StartEnv :=
  { has_video_capture := true, audio_capture_present := true,
    system_audio_enabled := true, microphone_enabled := true,
    wave_open_ok := true, ffmpeg_found := true, encoder_start_ok := false,
    audio_start_ok := true }

/-- A fully healthy setup: every external call succeeds. -/
def startEnvOk : StartEnv :=
  { has_video_capture := true, audio_capture_present := true,
    system_audio_enabled := true, microphone_enabled := true,
    wave_open_ok := true, ffmpeg_found := true, encoder_start_ok := true,
    audio_start_ok := true }

/-- The session reached by start(1), pause(2), stop(3), start(4):
start_recording resets start_time, total_pause_duration and both
counters but not pause_time, and stop_recording clears none of them, so
the second run begins Recording with the stale pause timestamp 2 still
set. -/
def staleSession : Session :=
  { state := RecordingState.RECORDING
    start_time := some 4
    pause_time := some 2
    total_pause_duration := 0
    frames_recorded := 0
    audio_chunks_recorded := 0 }

/-- The queue bound (audio_capture.py line 39: Queue(maxsize=50)). -/
def QUEUE_MAXSIZE : ℕ := 50

/-- put_nowait with the drop-oldest-on-Full policy of the capture
callbacks (audio_capture.py lines 91-99 and 111-119): a full queue has
its oldest element removed (get_nowait) before the new chunk is
inserted; every path uses only the non-blocking queue operations. -/
def putDropOldest (q : List AudioChunk) (c : AudioChunk) : List AudioChunk :=
  if q.length < QUEUE_MAXSIZE then q ++ [c]
  else q.drop 1 ++ [c]

/-- A capture callback (audio_capture.py lines 81-119): while capturing,
the converted chunk is enqueued with putDropOldest; otherwise it is
discarded. -/
def audioCallback (is_capturing : Bool) (c : AudioChunk)
    (q : List AudioChunk) : List AudioChunk :=
  if is_capturing then putDropOldest q c else q

/-- One iteration of the level probe (audio_capture.py lines 229-241):
the examined chunk updates the per-source running maximum when its data
is non-empty.  The RMS value itself is computed in floating point with a
square root in the source; it enters this model only through the
abstract rms argument, since the claim under scrutiny concerns the
queue effect. -/
def levelsStep (rms : AudioData → ℚ) (acc : ℚ × ℚ) (c : AudioChunk) :
    ℚ × ℚ :=
  if c.data.length > 0 then
    if c.source = "system" then (max acc.1 (rms c.data), acc.2)
    else if c.source = "microphone" then (acc.1, max acc.2 (rms c.data))
    else acc
  else acc

/-- get_audio_levels (audio_capture.py lines 216-243): examines
min(5, qsize) chunks, each obtained with get_nowait — which removes it
from the queue — and returns the level pair together with the queue that
remains; nothing is re-inserted. -/
def get_audio_levels (rms : AudioData → ℚ) (q : List AudioChunk) :
    (ℚ × ℚ) × List AudioChunk :=
  let n := min 5 q.length
  ((q.take n).foldl (levelsStep rms) (0, 0), q.drop n)

end ScreenRecorder

namespace ScreenRecorder

/-- Helper: the session coming out of stop_recording is the input
session, with at most the state switched to IDLE. -/
theorem stop_recording_session (env : StopEnv) (s : Session) :
    (stop_recording env s).session = s ∨
    (stop_recording env s).session = { s with state := RecordingState.IDLE } := by
  unfold stop_recording
  split
  · exact Or.inl rfl
  · split
    · split
      · split
        · exact Or.inr rfl
        · exact Or.inr rfl
      · exact Or.inr rfl
    · exact Or.inr rfl

/-- C3 counterexample: calling stop_recording while Idle returns True,
not the failure (False) stated by the claim.  Evaluated on a freshly
constructed recorder. -/
theorem c3_stop_idle_returns_true :
    (stop_recording stopEnvEmpty initSession).returnValue = true ∧
    (stop_recording stopEnvEmpty initSession).session = initSession := by
  constructor <;> rfl

/-- C3 (amended): pause_recording outside RECORDING and resume_recording
outside PAUSED are no-ops returning False; stop_recording from IDLE is a
no-op but returns True (success), not False.  None of the three mutates
the session fields. -/
theorem c3_invalid_state_noop (now : ℚ) (env : StopEnv) (s : Session) :
    (s.state ≠ RecordingState.RECORDING → pause_recording now s = (false, s)) ∧
    (s.state ≠ RecordingState.PAUSED → resume_recording now s = (false, s)) ∧
    (s.state = RecordingState.IDLE →
      (stop_recording env s).returnValue = true ∧
      (stop_recording env s).session = s) := by
  refine ⟨fun h => ?_, fun h => ?_, fun h => ?_⟩
  · simp [pause_recording, h]
  · simp [resume_recording, h]
  · simp [stop_recording, h]

/-- C3 witness: the amended theorem applied to the initial session. -/
theorem c3_invalid_state_noop_witness :
    pause_recording 5 initSession = (false, initSession) ∧
    resume_recording 5 initSession = (false, initSession) ∧
    (stop_recording stopEnvEmpty initSession).returnValue = true ∧
    (stop_recording stopEnvEmpty initSession).session = initSession :=
  ⟨(c3_invalid_state_noop 5 stopEnvEmpty initSession).1 (by simp [initSession]),
   (c3_invalid_state_noop 5 stopEnvEmpty initSession).2.1 (by simp [initSession]),
   (c3_invalid_state_noop 5 stopEnvEmpty initSession).2.2 rfl⟩

/-- C7 counterexample: after stop_recording the engine is Idle, yet
get_duration returns the elapsed time of the finished session
(15 - 10 - 0 = 5), not 0: get_duration tests start_time, never the
state, and stop_recording does not clear start_time. -/
theorem c7_idle_duration_nonzero :
    (stop_recording stopEnvEmpty recordingSession).session.state = RecordingState.IDLE ∧
    get_duration 15 (stop_recording stopEnvEmpty recordingSession).session = 5 ∧
    (5 : ℚ) ≠ 0 := by
  refine ⟨rfl, ?_, by norm_num⟩
  show max 0 (15 - 10 - 0 : ℚ) = 5
  norm_num

/-- C7 (amended): get_duration is queryable in every state; it returns 0
exactly when the session has never been started (start_time unset, or
the degenerate float 0.0); otherwise it returns the pause-aware elapsed
time clamped below at 0, regardless of the recording state — in
particular stop_recording does not change the reported duration, so an
Idle engine keeps reporting the last session's elapsed time. -/
theorem c7_get_duration_formula (now st : ℚ) (s : Session) (env : StopEnv) :
    (s.start_time = none → get_duration now s = 0) ∧
    (s.start_time = some st → st ≠ 0 → s.pause_time = none →
      get_duration now s = max 0 (now - st - s.total_pause_duration)) ∧
    (∀ p, s.start_time = some st → st ≠ 0 → s.pause_time = some p → p ≠ 0 →
      get_duration now s =
        max 0 (now - st - s.total_pause_duration - (now - p))) ∧
    (get_duration now (stop_recording env s).session = get_duration now s) := by
  refine ⟨fun h => ?_, fun h hst hp => ?_, fun p h hst hp hp0 => ?_, ?_⟩
  · simp [get_duration, h]
  · simp [get_duration, h, hst, hp]
  · simp [get_duration, h, hst, hp, hp0]
  · rcases stop_recording_session env s with h | h
    · rw [h]
    · rw [h]; rfl

/-- C7 witness: the amended theorem evaluated on the mid-recording
session at time 15 and on the initial session. -/
theorem c7_get_duration_formula_witness :
    get_duration 15 recordingSession = max 0 (15 - 10 - 0 : ℚ) ∧
    get_duration 15 initSession = 0 :=
  ⟨(c7_get_duration_formula 15 10 recordingSession stopEnvEmpty).2.1
      rfl (by norm_num) rfl,
   (c7_get_duration_formula 15 10 initSession stopEnvEmpty).1 rfl⟩

/-- C5 counterexample: video and a non-trivial audio file exist but the
merge invocation fails; the code does fall back to renaming the
temporary video to the output path, yet stop_recording returns False
(recorder.py line 216 sets success = False), while the claim says this
case reports success. -/
theorem c5_merge_failure_reports_failure :
    (stop_recording stopEnvMergeFails recordingSession).output = FinalOutput.videoOnly ∧
    (stop_recording stopEnvMergeFails recordingSession).returnValue = false := by
  constructor <;> rfl

/-- C5 (amended): when the merge of the temporary video and audio files
fails, the temporary video is renamed to the output path (video-only
fallback), but stop_recording reports failure in that case too; it
reports success exactly when the temporary video exists and either the
merge succeeds or no usable audio file exists. -/
theorem c5_finalize_fallback (env : StopEnv) (s : Session)
    (h : s.state ≠ RecordingState.IDLE) :
    (env.temp_video_path_set = true → env.temp_video_exists = true →
     env.temp_audio_path_set = true → env.temp_audio_exists = true →
     100 < env.temp_audio_size → env.merge_ok = false →
       (stop_recording env s).output = FinalOutput.videoOnly ∧
       (stop_recording env s).returnValue = false) ∧
    (env.temp_video_path_set = true → env.temp_video_exists = true →
     env.temp_audio_path_set = true → env.temp_audio_exists = true →
     100 < env.temp_audio_size → env.merge_ok = true →
       (stop_recording env s).output = FinalOutput.merged ∧
       (stop_recording env s).returnValue = true) ∧
    (env.temp_video_path_set = true → env.temp_video_exists = true →
     (env.temp_audio_path_set = false ∨ env.temp_audio_exists = false ∨
      env.temp_audio_size ≤ 100) →
       (stop_recording env s).output = FinalOutput.videoOnly ∧
       (stop_recording env s).returnValue = true) ∧
    (env.temp_video_exists = false →
       (stop_recording env s).returnValue = false ∧
       (stop_recording env s).output = FinalOutput.untouched) := by
  refine ⟨fun h1 h2 h3 h4 h5 h6 => ?_, fun h1 h2 h3 h4 h5 h6 => ?_,
          fun h1 h2 h3 => ?_, fun h1 => ?_⟩ <;>
    simp only [stop_recording, if_neg h]
  · simp [h1, h2, h3, h4, h5, h6]
  · simp [h1, h2, h3, h4, h5, h6]
  · rcases h3 with h3 | h3 | h3
    · simp [h1, h2, h3]
    · simp [h1, h2, h3]
    · have h4 : ¬ 100 < env.temp_audio_size := by omega
      simp [h1, h2, h4]
  · simp [h1]

/-- C5 witness: the amended theorem's merge-failure case evaluated on
the mid-recording session with the merge-failing environment. -/
theorem c5_finalize_fallback_witness :
    (stop_recording stopEnvMergeFails recordingSession).output = FinalOutput.videoOnly ∧
    (stop_recording stopEnvMergeFails recordingSession).returnValue = false :=
  (c5_finalize_fallback stopEnvMergeFails recordingSession
      (by simp [recordingSession])).1 rfl rfl rfl rfl (by decide) rfl

/-- Helper: get_duration reads exactly the three fields of
durationFormula. -/
theorem get_duration_eq_formula (now : ℚ) (s : Session) :
    get_duration now s =
      durationFormula now s.start_time s.pause_time s.total_pause_duration := rfl

/-- Helper: the elapsed formula is monotone in the query time — slope
one when no live pause timestamp is set, constant otherwise. -/
theorem durationFormula_mono {t1 t2 : ℚ} (ost opt : Option ℚ) (tp : ℚ)
    (h : t1 ≤ t2) :
    durationFormula t1 ost opt tp ≤ durationFormula t2 ost opt tp := by
  cases ost with
  | none => exact le_refl 0
  | some v =>
    unfold durationFormula
    by_cases hv : v = 0
    · simp [hv]
    · simp only [hv, if_false]
      cases opt with
      | none => exact max_le_max le_rfl (by linarith)
      | some p =>
        by_cases hp : p = 0
        · simp only [hp, ne_eq, not_true_eq_false, if_false]
          exact max_le_max le_rfl (by linarith)
        · simp only [ne_eq, hp, not_false_eq_true, if_true]
          have he : t1 - v - tp - (t1 - p) = t2 - v - tp - (t2 - p) := by ring
          rw [he]

/-- Helper: with a live pause timestamp the elapsed formula is
independent of the query time. -/
theorem durationFormula_frozen (t1 t2 p : ℚ) (ost : Option ℚ) (tp : ℚ)
    (hp0 : p ≠ 0) :
    durationFormula t1 ost (some p) tp = durationFormula t2 ost (some p) tp := by
  cases ost with
  | none => rfl
  | some v =>
    unfold durationFormula
    by_cases hv : v = 0
    · simp [hv]
    · simp only [hv, if_false, ne_eq, hp0, not_false_eq_true, if_true]
      have he : t1 - v - tp - (t1 - p) = t2 - v - tp - (t2 - p) := by ring
      rw [he]

/-- Helper: setting the pause timestamp to the current query time does
not change the formula's value. -/
theorem durationFormula_pause_now (t : ℚ) (ost : Option ℚ) (tp : ℚ) :
    durationFormula t ost (some t) tp = durationFormula t ost none tp := by
  cases ost with
  | none => rfl
  | some v =>
    unfold durationFormula
    by_cases hv : v = 0
    · simp [hv]
    · simp only [hv, if_false]
      by_cases ht : t = 0
      · simp [ht]
      · simp only [ne_eq, ht, not_false_eq_true, if_true]
        have he : t - v - tp - (t - t) = t - v - tp := by ring
        rw [he]

/-- Helper: a pause timestamp of 0.0 is treated exactly like an unset
one. -/
theorem durationFormula_zero_pause (t : ℚ) (ost : Option ℚ) (tp : ℚ) :
    durationFormula t ost (some 0) tp = durationFormula t ost none tp := by
  cases ost with
  | none => rfl
  | some v =>
    unfold durationFormula
    by_cases hv : v = 0
    · simp [hv]
    · simp [hv]

/-- Helper: folding a live pause interval into the accumulated pause
duration does not change the formula's value at the resume time. -/
theorem durationFormula_resume (t p : ℚ) (ost : Option ℚ) (tp : ℚ)
    (hp0 : p ≠ 0) :
    durationFormula t ost none (tp + (t - p)) =
      durationFormula t ost (some p) tp := by
  cases ost with
  | none => rfl
  | some v =>
    unfold durationFormula
    by_cases hv : v = 0
    · simp [hv]
    · simp only [hv, if_false, ne_eq, hp0, not_false_eq_true, if_true]
      have he : t - v - (tp + (t - p)) = t - v - tp - (t - p) := by ring
      rw [he]

/-- Helper: for a fixed session, get_duration is monotone in the query
time. -/
theorem get_duration_mono (s : Session) {t1 t2 : ℚ} (h : t1 ≤ t2) :
    get_duration t1 s ≤ get_duration t2 s := by
  rw [get_duration_eq_formula, get_duration_eq_formula]
  exact durationFormula_mono _ _ _ h

/-- Helper: pause_recording from the Recording state sets the state to
Paused and records the pause timestamp. -/
theorem pause_recording_of_recording (t : ℚ) (s : Session)
    (h : s.state = RecordingState.RECORDING) :
    pause_recording t s =
      (true, { s with state := RecordingState.PAUSED, pause_time := some t }) := by
  unfold pause_recording
  rw [if_neg (not_not_intro h)]

/-- Helper: pause_recording outside the Recording state is a no-op. -/
theorem pause_recording_invalid (t : ℚ) (s : Session)
    (h : s.state ≠ RecordingState.RECORDING) :
    pause_recording t s = (false, s) := by
  unfold pause_recording
  rw [if_pos h]

/-- Helper: resume_recording outside the Paused state is a no-op. -/
theorem resume_recording_invalid (t : ℚ) (s : Session)
    (h : s.state ≠ RecordingState.PAUSED) :
    resume_recording t s = (false, s) := by
  unfold resume_recording
  rw [if_pos h]

/-- Helper: resume_recording from Paused with a live pause timestamp
accumulates the pause interval and clears the timestamp. -/
theorem resume_recording_live (t p : ℚ) (s : Session)
    (h : s.state = RecordingState.PAUSED) (hp : s.pause_time = some p)
    (hp0 : p ≠ 0) :
    resume_recording t s =
      (true, { s with state := RecordingState.RECORDING
                      total_pause_duration := s.total_pause_duration + (t - p)
                      pause_time := none }) := by
  unfold resume_recording
  rw [if_neg (not_not_intro h)]
  simp [hp, hp0]

/-- Helper: resume_recording from Paused with pause_time unset only
flips the state. -/
theorem resume_recording_stale_none (t : ℚ) (s : Session)
    (h : s.state = RecordingState.PAUSED) (hp : s.pause_time = none) :
    resume_recording t s = (true, { s with state := RecordingState.RECORDING }) := by
  unfold resume_recording
  rw [if_neg (not_not_intro h)]
  simp [hp]

/-- Helper: resume_recording from Paused with the degenerate pause
timestamp 0.0 only flips the state (the Python truthiness guard skips
the accumulation). -/
theorem resume_recording_stale_zero (t : ℚ) (s : Session)
    (h : s.state = RecordingState.PAUSED) (hp : s.pause_time = some 0) :
    resume_recording t s = (true, { s with state := RecordingState.RECORDING }) := by
  unfold resume_recording
  rw [if_neg (not_not_intro h)]
  simp [hp]

/-- Helper: applying pause_recording at time t does not change the
duration observed at time t, provided no stale pause timestamp is set. -/
theorem get_duration_pause (t : ℚ) (s : Session) (hs : NoStalePause s) :
    get_duration t (pause_recording t s).2 = get_duration t s := by
  by_cases hrec : s.state = RecordingState.RECORDING
  · rw [pause_recording_of_recording t s hrec,
        get_duration_eq_formula, get_duration_eq_formula]
    show durationFormula t s.start_time (some t) s.total_pause_duration =
      durationFormula t s.start_time s.pause_time s.total_pause_duration
    rcases hs hrec with hpt | hpt <;> rw [hpt]
    · exact durationFormula_pause_now t _ _
    · rw [durationFormula_zero_pause]
      exact durationFormula_pause_now t _ _
  · rw [pause_recording_invalid t s hrec]

/-- Helper: applying resume_recording at time t does not change the
duration observed at time t. -/
theorem get_duration_resume (t : ℚ) (s : Session) :
    get_duration t (resume_recording t s).2 = get_duration t s := by
  by_cases hpse : s.state = RecordingState.PAUSED
  · cases hopt : s.pause_time with
    | none =>
      rw [resume_recording_stale_none t s hpse hopt]
      rfl
    | some p =>
      by_cases hp0 : p = 0
      · subst hp0
        rw [resume_recording_stale_zero t s hpse hopt]
        rfl
      · rw [resume_recording_live t p s hpse hopt hp0,
            get_duration_eq_formula, get_duration_eq_formula]
        show durationFormula t s.start_time none
              (s.total_pause_duration + (t - p)) =
            durationFormula t s.start_time s.pause_time s.total_pause_duration
        rw [hopt]
        exact durationFormula_resume t p _ _ hp0
  · rw [resume_recording_invalid t s hpse]

/-- Helper: with a live pause timestamp, get_duration is independent of
the query time (frozen value). -/
theorem get_duration_frozen (t1 t2 p : ℚ) (s : Session)
    (hpt : s.pause_time = some p) (hp0 : p ≠ 0) :
    get_duration t1 s = get_duration t2 s := by
  rw [get_duration_eq_formula, get_duration_eq_formula, hpt]
  exact durationFormula_frozen t1 t2 p _ _ hp0

/-- Helper: each action leaves the duration observed at the action's
own time unchanged. -/
theorem get_duration_applyAction (s : Session) (a : RecorderAction)
    (hs : NoStalePause s) :
    get_duration a.time (applyAction s a) = get_duration a.time s := by
  cases a with
  | tick t => rfl
  | doPause t => exact get_duration_pause t s hs
  | doResume t => exact get_duration_resume t s

/-- Helper: the absence of a stale pause timestamp is preserved by every
action. -/
theorem noStalePause_applyAction (s : Session) (a : RecorderAction)
    (hs : NoStalePause s) : NoStalePause (applyAction s a) := by
  cases a with
  | tick t => exact hs
  | doPause t =>
    show NoStalePause (pause_recording t s).2
    by_cases hrec : s.state = RecordingState.RECORDING
    · rw [pause_recording_of_recording t s hrec]
      intro h
      exact RecordingState.noConfusion h
    · rw [pause_recording_invalid t s hrec]
      exact hs
  | doResume t =>
    show NoStalePause (resume_recording t s).2
    by_cases hpse : s.state = RecordingState.PAUSED
    · cases hopt : s.pause_time with
      | none =>
        rw [resume_recording_stale_none t s hpse hopt]
        intro _
        exact Or.inl hopt
      | some p =>
        by_cases hp0 : p = 0
        · subst hp0
          rw [resume_recording_stale_zero t s hpse hopt]
          intro _
          exact Or.inr hopt
        · rw [resume_recording_live t p s hpse hopt hp0]
          intro _
          exact Or.inl rfl
    · rw [resume_recording_invalid t s hpse]
      exact hs

/-- Helper: along any trace with non-decreasing times, the observed
durations form a non-decreasing chain whose first element dominates the
duration at the initial time. -/
theorem durationsAlong_chain (acts : List RecorderAction) :
    ∀ (s : Session) (tprev : ℚ), NoStalePause s → ValidTimes tprev acts →
      List.Chain' (· ≤ ·) (durationsAlong s acts) ∧
      (∀ x ∈ (durationsAlong s acts).head?, get_duration tprev s ≤ x) := by
  induction acts with
  | nil => intro s tprev _ _; exact ⟨List.chain'_nil, by simp [durationsAlong]⟩
  | cons a rest ih =>
    intro s tprev hs hv
    obtain ⟨hle, hv'⟩ := hv
    have hs' := noStalePause_applyAction s a hs
    obtain ⟨ihc, ihh⟩ := ih (applyAction s a) a.time hs' hv'
    have hstep : get_duration tprev s ≤ get_duration a.time (applyAction s a) := by
      rw [get_duration_applyAction s a hs]
      exact get_duration_mono s hle
    constructor
    · show List.Chain' (· ≤ ·)
        (get_duration a.time (applyAction s a) :: durationsAlong (applyAction s a) rest)
      exact List.chain'_cons'.mpr ⟨ihh, ihc⟩
    · intro x hx
      simp only [durationsAlong, List.head?_cons, Option.mem_def, Option.some.injEq] at hx
      rw [← hx]
      exact hstep

/-- Helper: the freeze-and-monotonicity invariant does hold for
sessions whose Recording state carries no stale pause timestamp: along
any such trace with non-decreasing times the observed durations are a
non-decreasing chain, pausing at a non-zero time freezes the value at
its pre-pause level for every later query, and resume is continuous. -/
theorem duration_invariant_of_noStalePause (s : Session)
    (acts : List RecorderAction) (tprev p t : ℚ) :
    (NoStalePause s → ValidTimes tprev acts →
      List.Chain' (· ≤ ·) (durationsAlong s acts)) ∧
    (NoStalePause s → s.state = RecordingState.RECORDING → p ≠ 0 →
      get_duration t (pause_recording p s).2 = get_duration p s) ∧
    (get_duration t (resume_recording t s).2 = get_duration t s) := by
  refine ⟨fun hs hv => (durationsAlong_chain acts s tprev hs hv).1,
          fun hs hrec hp0 => ?_,
          get_duration_resume t s⟩
  have h1 : get_duration p (pause_recording p s).2 = get_duration p s :=
    get_duration_pause p s hs
  have h2 : (pause_recording p s).2.pause_time = some p := by
    unfold pause_recording
    simp [hrec]
  calc get_duration t (pause_recording p s).2
      = get_duration p (pause_recording p s).2 :=
        get_duration_frozen t p p _ h2 hp0
    _ = get_duration p s := h1

/-- C8: the claimed invariant — get_duration monotonically
non-decreasing across the session, frozen while Paused at exactly the
pre-pause value — is the spec's stated intent, but the code violates it
on a reachable session: start(1), pause(2), stop(3), start(4) leaves
the stale pause timestamp 2 live, because start_recording resets every
per-session field except pause_time and stop_recording clears nothing.
On that session get_duration reports 0 immediately before pause(5) and
1 at every later time while Paused, so the value taken immediately
before pause differs from the frozen value, and the duration had not
been advancing while Recording.  For sessions without a stale
timestamp the invariant is proved in
duration_invariant_of_noStalePause. -/
theorem c8_stale_pause_trace :
    (start_recording 4 startEnvOk
        (stop_recording stopEnvEmpty
          ((pause_recording 2
            (start_recording 1 startEnvOk initSession).session).2)).session).session
      = staleSession ∧
    staleSession.state = RecordingState.RECORDING ∧
    get_duration 5 staleSession = 0 ∧
    (pause_recording 5 staleSession).1 = true ∧
    get_duration 6 ((pause_recording 5 staleSession).2) = 1 ∧
    get_duration 7 ((pause_recording 5 staleSession).2) = 1 ∧
    ((0 : ℚ) ≠ 1) := by
  have h4 : (4 : ℚ) ≠ 0 := by norm_num
  have h2 : (2 : ℚ) ≠ 0 := by norm_num
  have h5 : (5 : ℚ) ≠ 0 := by norm_num
  refine ⟨rfl, rfl, ?_, rfl, ?_, ?_, by norm_num⟩
  · rw [get_duration_eq_formula]
    show (if (4 : ℚ) = 0 then 0
          else if (2 : ℚ) ≠ 0 then max 0 ((5 : ℚ) - 4 - 0 - (5 - 2))
          else max 0 ((5 : ℚ) - 4 - 0)) = 0
    rw [if_neg h4, if_pos h2]
    have he : (5 : ℚ) - 4 - 0 - (5 - 2) = -2 := by norm_num
    rw [he]
    exact max_eq_left (by norm_num)
  · rw [get_duration_eq_formula]
    show (if (4 : ℚ) = 0 then 0
          else if (5 : ℚ) ≠ 0 then max 0 ((6 : ℚ) - 4 - 0 - (6 - 5))
          else max 0 ((6 : ℚ) - 4 - 0)) = 1
    rw [if_neg h4, if_pos h5]
    have he : (6 : ℚ) - 4 - 0 - (6 - 5) = 1 := by norm_num
    rw [he]
    exact max_eq_right (by norm_num)
  · rw [get_duration_eq_formula]
    show (if (4 : ℚ) = 0 then 0
          else if (5 : ℚ) ≠ 0 then max 0 ((7 : ℚ) - 4 - 0 - (7 - 5))
          else max 0 ((7 : ℚ) - 4 - 0)) = 1
    rw [if_neg h4, if_pos h5]
    have he : (7 : ℚ) - 4 - 0 - (7 - 5) = 1 := by norm_num
    rw [he]
    exact max_eq_right (by norm_num)

/-- Helper: the catch-up loop writes at most one frame per iteration. -/
theorem catchUpBurst_le (obs : List BurstObs) :
    ∀ fr, catchUpBurst fr obs ≤ fr + obs.length := by
  induction obs with
  | nil => intro fr; simp [catchUpBurst]
  | cons o rest ih =>
    intro fr
    have hih := ih (fr + 1)
    cases hio : o.idleObserved <;> cases hwo : o.writeOk
    all_goals simp [catchUpBurst, hio, hwo]
    all_goals omega

/-- Helper: with no IDLE observation and all writes succeeding, the
catch-up loop writes exactly one frame per iteration. -/
theorem catchUpBurst_all_ok (obs : List BurstObs)
    (h : ∀ x ∈ obs, x.idleObserved = false ∧ x.writeOk = true) :
    ∀ fr, catchUpBurst fr obs = fr + obs.length := by
  induction obs with
  | nil => intro fr; simp [catchUpBurst]
  | cons o rest ih =>
    intro fr
    obtain ⟨hi, hw⟩ := h o (List.mem_cons_self o rest)
    have hrest : ∀ x ∈ rest, x.idleObserved = false ∧ x.writeOk = true :=
      fun x hx => h x (List.mem_cons_of_mem o hx)
    unfold catchUpBurst
    simp only [hi, hw, if_true, Bool.false_eq_true, if_false, List.length_cons]
    rw [ih hrest (fr + 1)]
    omega

/-- Helper: the IDLE flag is checked at the top of every iteration, so
the loop stops exactly at the first IDLE observation. -/
theorem catchUpBurst_idle_stop (o : BurstObs) (rest : List BurstObs)
    (ho : o.idleObserved = true) :
    ∀ pre : List BurstObs,
      (∀ x ∈ pre, x.idleObserved = false ∧ x.writeOk = true) →
      ∀ fr, catchUpBurst fr (pre ++ o :: rest) = fr + pre.length := by
  intro pre
  induction pre with
  | nil =>
    intro _ fr
    simp only [List.nil_append, List.length_nil, Nat.add_zero]
    unfold catchUpBurst
    simp [ho]
  | cons x xs ih =>
    intro hpre fr
    obtain ⟨hi, hw⟩ := hpre x (List.mem_cons_self x xs)
    have hxs : ∀ y ∈ xs, y.idleObserved = false ∧ y.writeOk = true :=
      fun y hy => hpre y (List.mem_cons_of_mem x hy)
    simp only [List.cons_append]
    unfold catchUpBurst
    simp only [hi, hw, if_true, Bool.false_eq_true, if_false, List.length_cons]
    rw [ih hxs (fr + 1)]
    omega

/-- Helper: Python int() agrees with the floor on non-negative values. -/
theorem pyInt_eq_floor (q : ℚ) (h : 0 ≤ q) : pyInt q = Int.floor q := by
  unfold pyInt
  rw [Rat.floor_def]
  exact Int.tdiv_eq_ediv (Rat.num_nonneg.mpr h) (by positivity)

/-- Helper: when behind schedule with a frame available, videoPass runs
the catch-up loop over the first expected - recorded observations. -/
theorem videoPass_behind (inp : VideoPassIn) (obs : List BurstObs)
    (hb : (inp.frames_recorded : ℤ) < expected_frames inp)
    (w : NpFrame) (hw : selectWriteFrame inp.fresh inp.last = some w) :
    videoPass inp obs =
      (catchUpBurst inp.frames_recorded
        (obs.take (expected_frames inp - (inp.frames_recorded : ℤ)).toNat),
       selectWriteFrame inp.fresh inp.last) := by
  unfold videoPass
  rw [if_pos hb, hw]

/-- C1 (as stated, under the write-success proviso the spec makes
elsewhere for pipe failures): when a pass of the loop is behind
schedule, it selects the fresh capture if one succeeded and otherwise
the retained last frame, and writes copies until frames_recorded equals
expected_frames — checked against the IDLE state on every iteration, so
an IDLE observation stops the burst immediately; frames_recorded never
exceeds expected_frames; and expected_frames is exactly
floor(elapsed * fps) whenever elapsed is non-negative. -/
theorem c1_catch_up_burst (inp : VideoPassIn) (obs : List BurstObs) :
    ((inp.frames_recorded : ℤ) ≤ expected_frames inp →
      (((videoPass inp obs).1 : ℤ) ≤ expected_frames inp)) ∧
    ((inp.frames_recorded : ℤ) < expected_frames inp →
      obs.length = (expected_frames inp - (inp.frames_recorded : ℤ)).toNat →
      (inp.fresh = none → inp.last ≠ none) →
      (((∀ x ∈ obs, x.idleObserved = false ∧ x.writeOk = true) →
          ((videoPass inp obs).1 : ℤ) = expected_frames inp) ∧
       (∀ (pre : List BurstObs) (o : BurstObs) (rest : List BurstObs),
          obs = pre ++ o :: rest →
          (∀ x ∈ pre, x.idleObserved = false ∧ x.writeOk = true) →
          o.idleObserved = true →
          (videoPass inp obs).1 = inp.frames_recorded + pre.length))) ∧
    ((inp.frames_recorded : ℤ) < expected_frames inp →
      (videoPass inp obs).2 = selectWriteFrame inp.fresh inp.last) ∧
    (0 ≤ inp.now - inp.start_time - inp.total_pause_duration →
      expected_frames inp =
        Int.floor ((inp.now - inp.start_time - inp.total_pause_duration) *
          (inp.fps : ℚ))) := by
  have hsel : ∀ (hb : (inp.frames_recorded : ℤ) < expected_frames inp),
      (inp.fresh = none → inp.last ≠ none) →
      ∃ w, selectWriteFrame inp.fresh inp.last = some w := by
    intro _ hfl
    cases hf : inp.fresh with
    | some f => exact ⟨f, by simp [selectWriteFrame, hf]⟩
    | none =>
      cases hl : inp.last with
      | some g => exact ⟨g, by simp [selectWriteFrame, hf, hl]⟩
      | none => exact absurd hl (hfl hf)
  refine ⟨fun hle => ?_, fun hb hlen hfl => ?_, fun hb => ?_, fun helapsed => ?_⟩
  · by_cases hb : (inp.frames_recorded : ℤ) < expected_frames inp
    · cases hs : selectWriteFrame inp.fresh inp.last with
      | none =>
        unfold videoPass
        rw [if_pos hb, hs]
        exact hle
      | some w =>
        rw [videoPass_behind inp obs hb w hs]
        have h1 := catchUpBurst_le
          (obs.take (expected_frames inp - (inp.frames_recorded : ℤ)).toNat)
          inp.frames_recorded
        have h2 : (obs.take
            (expected_frames inp - (inp.frames_recorded : ℤ)).toNat).length ≤
            (expected_frames inp - (inp.frames_recorded : ℤ)).toNat := by
          simp [List.length_take]
        simp only
        omega
    · unfold videoPass
      rw [if_neg hb]
      exact hle
  · obtain ⟨w, hs⟩ := hsel hb hfl
    have htake : obs.take
        (expected_frames inp - (inp.frames_recorded : ℤ)).toNat = obs := by
      rw [← hlen]
      exact List.take_length obs
    constructor
    · intro hok
      rw [videoPass_behind inp obs hb w hs]
      simp only
      rw [htake, catchUpBurst_all_ok obs hok]
      omega
    · intro pre o rest hobs hpre ho
      rw [videoPass_behind inp obs hb w hs]
      simp only
      rw [htake, hobs, catchUpBurst_idle_stop o rest ho pre hpre]
  · cases hs : selectWriteFrame inp.fresh inp.last with
    | none =>
      unfold videoPass
      rw [if_pos hb, hs]
    | some w =>
      rw [videoPass_behind inp obs hb w hs]
      exact hs
  · unfold expected_frames
    exact pyInt_eq_floor _ (mul_nonneg helapsed (by positivity))

/-- Helper: the sample pass input expects two frames after one second
at 2 fps. -/
theorem expected_frames_sample : expected_frames videoPassSample = 2 := by
  have h1 : (videoPassSample.now - videoPassSample.start_time -
      videoPassSample.total_pause_duration) * (videoPassSample.fps : ℚ) = 2 := by
    norm_num [videoPassSample]
  unfold expected_frames
  rw [h1]
  unfold pyInt
  rw [Rat.num_ofNat, Rat.den_ofNat]
  decide

/-- C1 witness: the sample pass, behind by two frames with a fresh
capture and two successful write iterations, lands exactly on the
expected count. -/
theorem c1_catch_up_burst_witness :
    ((videoPass videoPassSample burstObsSample).1 : ℤ) =
      expected_frames videoPassSample :=
  ((c1_catch_up_burst videoPassSample burstObsSample).2.1
      (by rw [expected_frames_sample]; decide)
      (by rw [expected_frames_sample]; decide)
      (by intro h; simp [videoPassSample] at h)).1
    (by decide)

/-- Helper: zipWith of two replicated lists is a replicated list of the
combined element, with the shorter length. -/
theorem zipWith_replicate_min {α β γ : Type} (f : α → β → γ) :
    ∀ (m n : ℕ) (a : α) (b : β),
      List.zipWith f (List.replicate m a) (List.replicate n b) =
        List.replicate (min m n) (f a b) := by
  intro m
  induction m with
  | zero => intro n a b; simp
  | succ m ih =>
    intro n a b
    cases n with
    | zero => simp
    | succ n =>
      simp only [List.replicate_succ, List.zipWith_cons_cons, ih,
        Nat.succ_min_succ]

/-- Helper: an element of a zipWith through the optional indexing. -/
theorem getElem?_zipWith_map₂ {α β γ : Type} (f : α → β → γ)
    (l₁ : List α) (l₂ : List β) (i : ℕ) :
    (List.zipWith f l₁ l₂)[i]? = Option.map₂ f l₁[i]? l₂[i]? := by
  rw [List.getElem?_zipWith']
  cases l₁[i]? <;> cases l₂[i]? <;> rfl

/-- Helper: mixing preserves the accumulator's length. -/
theorem mixPair_length (m d : AudioData) : (mixPair m d).length = m.length := by
  simp [mixPair, List.length_zipWith]

/-- Helper: the sample data of chunk A. -/
theorem chunkA_data : chunkA.data = List.replicate 500 (-3) := rfl

/-- Helper: the sample data of chunk B. -/
theorem chunkB_data : chunkB.data = List.replicate 300 0 := rfl

/-- Helper: chunk A has 500 samples. -/
theorem chunkA_len : chunkA.data.length = 500 := by
  rw [chunkA_data, List.length_replicate]

/-- Helper: chunk B has 300 samples. -/
theorem chunkB_len : chunkB.data.length = 300 := by
  rw [chunkB_data, List.length_replicate]

/-- Helper: the mixed output for the concrete chunks, evaluated. -/
theorem mixPair_sample_eval :
    mixPair chunkA.data chunkB.data =
      List.replicate 300 (-2) ++ List.replicate 200 (-3) := by
  rw [chunkA_data, chunkB_data]
  unfold mixPair
  rw [zipWith_replicate_min, List.length_replicate, List.length_replicate,
    List.drop_replicate]
  norm_num
  decide

/-- C2 counterexample: for the burst [A, B] with A = 500 samples of -3
and B = 300 samples of 0, the mixed output has length 500 (the first
chunk's length), not 300, and the overlap sample is
floor((-3 + 0)/2) = -2, not the -1 that truncation toward zero would
give.  The claim's conjunction of output length 300 with A's tail at
indices 300-499 being preserved is unsatisfiable on this code. -/
theorem c2_mixing_counterexample :
    mixChunks [chunkA, chunkB] =
      some (List.replicate 300 (-2) ++ List.replicate 200 (-3)) ∧
    (List.replicate 300 (-2 : ℤ) ++ List.replicate 200 (-3 : ℤ)).length = 500 ∧
    chunkA.data.length = 500 ∧
    chunkB.data.length = 300 ∧
    (500 ≠ 300) ∧
    Int.fdiv ((-3) + 0) 2 = -2 ∧
    Int.tdiv ((-3) + 0) 2 = -1 ∧
    ((-2 : ℤ) ≠ -1) := by
  refine ⟨?_, ?_, chunkA_len, chunkB_len,
    by decide, by decide, by decide, by decide⟩
  · show some (mixPair chunkA.data chunkB.data) = _
    rw [mixPair_sample_eval]
  · rw [List.length_append, List.length_replicate, List.length_replicate]

/-- C2 (amended): for a burst [A, B] with 500 and 300 samples, the mixed
output is produced (and none is when the burst is empty), it has length
500 — the first chunk's length, not 300 —, each sample of the 300-long
overlap is the floor (not truncation toward zero) of (a + b)/2, and A's
tail at indices 300-499 is preserved unmixed; mixing combines samples
only up to the shorter chunk's length. -/
theorem c2_mixing_amended (A B : AudioChunk)
    (hA : A.data.length = 500) (hB : B.data.length = 300) :
    mixChunks [A, B] = some (mixPair A.data B.data) ∧
    (mixPair A.data B.data).length = 500 ∧
    (∀ i, i < 300 →
      (mixPair A.data B.data)[i]? =
        Option.map₂ (fun a b => Int.fdiv (a + b) 2) A.data[i]? B.data[i]?) ∧
    (∀ i, 300 ≤ i → (mixPair A.data B.data)[i]? = A.data[i]?) ∧
    mixChunks [] = none := by
  have hzlen : (List.zipWith (fun a b => Int.fdiv (a + b) 2)
      A.data B.data).length = 300 := by
    simp [List.length_zipWith, hA, hB]
  refine ⟨rfl, by rw [mixPair_length, hA], fun i hi => ?_, fun i hi => ?_, rfl⟩
  · unfold mixPair
    rw [List.getElem?_append_left (by rw [hzlen]; exact hi)]
    exact getElem?_zipWith_map₂ _ _ _ i
  · have hmin : min A.data.length B.data.length = 300 := by omega
    have hidx : 300 + (i - 300) = i := by omega
    unfold mixPair
    rw [List.getElem?_append_right (by rw [hzlen]; exact hi), hzlen, hmin,
      List.getElem?_drop, hidx]

/-- C2 witness: the amended theorem applied to the concrete 500/300
sample chunks. -/
theorem c2_mixing_amended_witness :
    mixChunks [chunkA, chunkB] = some (mixPair chunkA.data chunkB.data) ∧
    (mixPair chunkA.data chunkB.data).length = 500 :=
  ⟨(c2_mixing_amended chunkA chunkB chunkA_len chunkB_len).1,
   (c2_mixing_amended chunkA chunkB chunkA_len chunkB_len).2.1⟩

/-- Helper: the normalised frame's byte length is
e.height * e.width * f.channels, whether or not a resize happened. -/
theorem resizedFrame_bytes (e : EncoderSt) (f : NpFrame) :
    (resizedFrame e f).height * (resizedFrame e f).width *
      (resizedFrame e f).channels * (resizedFrame e f).itemsize =
      e.height * e.width * f.channels := by
  unfold resizedFrame
  by_cases h : f.height ≠ e.height ∨ f.width ≠ e.width
  · rw [if_pos h]
    show e.height * e.width * f.channels * 1 = _
    rw [Nat.mul_one]
  · rw [if_neg h]
    push_neg at h
    show f.height * f.width * f.channels * 1 = _
    rw [Nat.mul_one, h.1, h.2]

/-- C4 counterexample: two frames whose byte length differs from
width*height*3 are not rejected with a silent False.  The 10x10 RGB
uint8 frame (300 bytes) is resized by the healthy 1920x1080 encoder and
written, returning True; the 10x10 float32 RGB frame (1200 bytes) needs
a resize that Image.fromarray cannot perform, so the call raises a
TypeError that the except clause (BrokenPipeError, OSError, ValueError
only) does not catch, instead of returning False. -/
theorem c4_small_frame_resized_and_written :
    frameSmall.height * frameSmall.width * frameSmall.channels *
      frameSmall.itemsize = 300 ∧
    frameFloat.height * frameFloat.width * frameFloat.channels *
      frameFloat.itemsize = 1200 ∧
    encoderSample.width * encoderSample.height * 3 = 6220800 ∧
    (300 ≠ 6220800) ∧ (1200 ≠ 6220800) ∧
    write_video_frame encoderSample frameSmall =
      WriteOutcome.returned true true ∧
    write_video_frame encoderSample frameFloat = WriteOutcome.raised := by
  refine ⟨rfl, rfl, rfl, by decide, by decide, ?_, ?_⟩ <;> decide

/-- C4 (amended): while encoding with a live stdin handle, a frame of
mismatched spatial shape is resized to the target shape when PIL can
convert it (uint8 with 2, 3 or 4 channels) and then written rather than
rejected; when PIL cannot convert it, the TypeError propagates to the
caller instead of a False return; the silent rejection (False, nothing
written to the pipe) happens exactly when the normalised channel count
differs from 3; a closed or broken pipe makes the call return False
without propagating; and no other path raises. -/
theorem c4_write_video_frame (e : EncoderSt) (f : NpFrame)
    (henc : e.is_encoding = true) (hstdin : e.stdin_available = true)
    (hpos : 0 < e.width * e.height) :
    (((f.height = e.height ∧ f.width = e.width) ∨ fromarraySupported f = true) →
      f.channels ≠ 3 →
      write_video_frame e f = WriteOutcome.returned false false) ∧
    ((f.height ≠ e.height ∨ f.width ≠ e.width) → fromarraySupported f = false →
      write_video_frame e f = WriteOutcome.raised) ∧
    (((f.height = e.height ∧ f.width = e.width) ∨ fromarraySupported f = true) →
      f.channels = 3 → e.pipe_broken = true →
      write_video_frame e f = WriteOutcome.returned false true) ∧
    (((f.height = e.height ∧ f.width = e.width) ∨ fromarraySupported f = true) →
      f.channels = 3 → e.pipe_broken = false →
      write_video_frame e f = WriteOutcome.returned true true) ∧
    (write_video_frame e f = WriteOutcome.raised →
      (f.height ≠ e.height ∨ f.width ≠ e.width) ∧
        fromarraySupported f = false) := by
  have hguard : ¬ (e.is_encoding = false ∨ e.stdin_available = false) := by
    rw [henc, hstdin]
    simp
  have hbytes := resizedFrame_bytes e f
  have hkey : (resizedFrame e f).height * (resizedFrame e f).width *
      (resizedFrame e f).channels * (resizedFrame e f).itemsize =
      e.width * e.height * 3 ↔ f.channels = 3 := by
    rw [hbytes]
    constructor
    · intro h
      refine Nat.eq_of_mul_eq_mul_left hpos ?_
      calc e.width * e.height * f.channels
          = e.height * e.width * f.channels := by ring
        _ = e.width * e.height * 3 := h
    · intro h
      rw [h]
      ring
  have hnoraise : ∀ _ : (f.height = e.height ∧ f.width = e.width) ∨
      fromarraySupported f = true,
      ¬ ((f.height ≠ e.height ∨ f.width ≠ e.width) ∧
        fromarraySupported f = false) := by
    rintro hok ⟨hm, hs⟩
    rcases hok with ⟨hh, hw⟩ | hsup
    · rcases hm with hm | hm
      · exact hm hh
      · exact hm hw
    · rw [hsup] at hs
      cases hs
  refine ⟨fun hok hc => ?_, fun hm hs => ?_, fun hok hc hbr => ?_,
          fun hok hc hbr => ?_, fun hr => ?_⟩
  · unfold write_video_frame
    rw [if_neg hguard, if_neg (hnoraise hok),
      if_pos (fun h => hc (hkey.mp h))]
  · unfold write_video_frame
    rw [if_neg hguard, if_pos ⟨hm, hs⟩]
  · unfold write_video_frame
    rw [if_neg hguard, if_neg (hnoraise hok),
      if_neg (not_not_intro (hkey.mpr hc)), if_pos hbr]
  · unfold write_video_frame
    rw [if_neg hguard, if_neg (hnoraise hok),
      if_neg (not_not_intro (hkey.mpr hc)), if_neg (by simp [hbr])]
  · by_cases h2 : (f.height ≠ e.height ∨ f.width ≠ e.width) ∧
        fromarraySupported f = false
    · exact h2
    · exfalso
      unfold write_video_frame at hr
      rw [if_neg hguard, if_neg h2] at hr
      by_cases h3 : (resizedFrame e f).height * (resizedFrame e f).width *
          (resizedFrame e f).channels * (resizedFrame e f).itemsize ≠
          e.width * e.height * 3
      · rw [if_pos h3] at hr
        exact WriteOutcome.noConfusion hr
      · rw [if_neg h3] at hr
        by_cases h4 : e.pipe_broken = true
        · rw [if_pos h4] at hr
          exact WriteOutcome.noConfusion hr
        · rw [if_neg h4] at hr
          exact WriteOutcome.noConfusion hr

/-- C4 witness: the amended theorem applied to the healthy encoder and
the right-shaped RGBA frame, whose channel count 4 is silently rejected
before any pipe write. -/
theorem c4_write_video_frame_witness :
    write_video_frame encoderSample frameRgba =
      WriteOutcome.returned false false :=
  (c4_write_video_frame encoderSample frameRgba rfl rfl (by decide)).1
    (Or.inl ⟨rfl, rfl⟩) (by decide)

/-- C6: the claim is the spec's stated rollback guarantee, and the code
intends it (the exception handler calls stop_recording to clean up),
but the cleanup is ineffective: when the encoder process fails to
launch during setup with audio enabled, start_recording returns False
with the engine Idle, yet the already-opened wave file stays open and
the temporary audio file stays on disk — stop_recording is a no-op
because the state is still IDLE, and the encoder-failure branch returns
directly without any cleanup (recorder.py lines 136-138). -/
theorem c6_encoder_failure_leaks_wave_file :
    (start_recording 10 startEnvEncoderFails initSession).returnValue = false ∧
    (start_recording 10 startEnvEncoderFails initSession).session.state =
      RecordingState.IDLE ∧
    (start_recording 10 startEnvEncoderFails initSession).encoder_running = false ∧
    (start_recording 10 startEnvEncoderFails initSession).audio_capturing = false ∧
    (start_recording 10 startEnvEncoderFails initSession).loop_thread_running = false ∧
    (start_recording 10 startEnvEncoderFails initSession).wave_file_open = true ∧
    (start_recording 10 startEnvEncoderFails initSession).temp_audio_file_on_disk =
      true :=
  ⟨rfl, rfl, rfl, rfl, rfl, rfl, rfl⟩

/-- C9: a capture callback enqueues every chunk produced while
capturing using only the non-blocking queue operations; below the bound
the chunk is appended, at the bound the oldest chunk is removed first,
so the queue never exceeds 50 entries and the newest chunk is always at
the back. -/
theorem c9_queue_bounded_drop_oldest (q : List AudioChunk) (c : AudioChunk)
    (hlen : q.length ≤ QUEUE_MAXSIZE) :
    (audioCallback true c q).length ≤ QUEUE_MAXSIZE ∧
    (q.length < QUEUE_MAXSIZE → audioCallback true c q = q ++ [c]) ∧
    (q.length = QUEUE_MAXSIZE → audioCallback true c q = q.drop 1 ++ [c]) ∧
    (audioCallback true c q).getLast? = some c := by
  unfold audioCallback putDropOldest
  rw [if_pos rfl]
  unfold QUEUE_MAXSIZE at *
  by_cases h : q.length < 50
  · rw [if_pos h]
    refine ⟨?_, fun _ => rfl, fun heq => absurd heq (by omega),
      List.getLast?_concat _⟩
    rw [List.length_append]
    simp only [List.length_singleton]
    omega
  · rw [if_neg h]
    refine ⟨?_, fun hlt => absurd hlt h, fun _ => rfl,
      List.getLast?_concat _⟩
    rw [List.length_append, List.length_drop]
    simp only [List.length_singleton]
    omega

/-- C9 witness: the callback applied to the empty queue. -/
theorem c9_queue_bounded_drop_oldest_witness :
    (audioCallback true chunkB []).length ≤ QUEUE_MAXSIZE ∧
    (([] : List AudioChunk).length < QUEUE_MAXSIZE →
      audioCallback true chunkB [] = [] ++ [chunkB]) ∧
    (([] : List AudioChunk).length = QUEUE_MAXSIZE →
      audioCallback true chunkB [] = List.drop 1 [] ++ [chunkB]) ∧
    (audioCallback true chunkB []).getLast? = some chunkB :=
  c9_queue_bounded_drop_oldest [] chunkB (by decide)

/-- C10: get_audio_levels is a destructive read — it removes
min(5, qsize) chunks from the front of the shared queue to compute the
levels and puts nothing back, so the remaining queue is exactly the
original with its inspected prefix permanently gone, and the levels are
folded over precisely that removed prefix. -/
theorem c10_get_audio_levels_destructive (rms : AudioData → ℚ)
    (q : List AudioChunk) :
    (get_audio_levels rms q).2 = q.drop (min 5 q.length) ∧
    (get_audio_levels rms q).2.length = q.length - min 5 q.length ∧
    q.take (min 5 q.length) ++ (get_audio_levels rms q).2 = q ∧
    (get_audio_levels rms q).1 =
      (q.take (min 5 q.length)).foldl (levelsStep rms) (0, 0) := by
  refine ⟨rfl, ?_, ?_, rfl⟩
  · show (q.drop (min 5 q.length)).length = _
    rw [List.length_drop]
  · exact List.take_append_drop _ q

end ScreenRecorder
